import Mathlib

/-!
Shallow embedding of the SharePoint proxy service (Node/Express) and proofs
about its token cache, data cache, auth middleware, error handler, OData
filter builders and the natural-language intent classifier.

Source files embedded here:
- src/services/sharepoint.service.js (token cache, query builders,
  detectSearchIntent, getListItems, getItemById, updateItem cache effects)
- src/middleware/auth.middleware.js (apiKeyAuth)
- src/unnamed error middleware (errorHandler)
- src/controllers/items.controller.js (getItems envelope)
-/

namespace SharePointProxy

/-- Single-quote character used inside OData filter strings, written via its
code point. -/
def sq : String := String.singleton (Char.ofNat 39)

/-- JavaScript Array.prototype.join with a separator (used as
`filters.join(' and ')` and `params.join('&')` in the source). -/
def joinSep (sep : String) : List String → String
  | [] => ""
  | [x] => x
  | x :: y :: rest => x ++ sep ++ joinSep sep (y :: rest)

/-- JavaScript truthiness filter for an optional string: `undefined` and the
empty string are falsy (`if (filter) ...`). -/
def jsTruthyStr : Option String → Option String
  | some s => if s = "" then none else some s
  | none => none

/-- JavaScript truthiness filter for an optional number: `undefined` and `0`
are falsy (`if (top) ...`). -/
def jsTruthyNat : Option Nat → Option Nat
  | some n => if n = 0 then none else some n
  | none => none

/-- JavaScript `a || b` on an optional string and a default
(`err.message || 'Internal server error'`). -/
def jsOrStr (s d : String) : String := if s = "" then d else s

/-- JavaScript `a || b` on an optional number and a default
(`err.status || 500`). -/
def jsOrNat : Option Nat → Nat → Nat
  | some n, d => if n = 0 then d else n
  | none, d => d

/-! ### In-memory cache (node-cache)

The NodeCache instances `tokenCache` and `dataCache` store exact string
keys; `get` returns the stored value while the entry is alive, `set`
replaces any previous entry for the key, `del` removes exactly the given
key (node-cache has no wildcard deletion). The data cache is modelled as an
association list; TTL is irrelevant for the data-cache claims, which are
about which keys the write path removes. -/

/-- Data cache state: a key-value store mapping string keys to values. -/
def Cache (V : Type) : Type := String → Option V

namespace Cache

/-- Cache with no entries. -/
def empty {V : Type} : Cache V := fun _ => none

/-- Lookup of an exact key (`dataCache.get(key)`). -/
def get {V : Type} (st : Cache V) (k : String) : Option V := st k

/-- Removal of an exact key (`dataCache.del(key)`). -/
def del {V : Type} (st : Cache V) (k : String) : Cache V :=
  fun k' => if k' = k then none else st k'

/-- Store a value under a key, replacing any previous entry
(`dataCache.set(key, value)`). -/
def set {V : Type} (st : Cache V) (k : String) (v : V) : Cache V :=
  fun k' => if k' = k then some v else st k'

end Cache

/-! ### Token cache and `getAccessToken` (sharepoint.service.js lines 16-53)

`getAccessToken` consults `tokenCache.get('access_token')`; on a hit it
returns the cached token without any network call, otherwise it POSTs to
the token endpoint, stores the returned token with the configured TTL and
returns it. The single entry is modelled as `Option TokenEntry`; the time
is an explicit `now` parameter and the token the endpoint would return is
the explicit `fetched` parameter. A node-cache entry set at time `t` with
TTL `ttl` is alive at every `now ≤ t + ttl`. -/

structure TokenEntry where
  token : String
  expiry : Nat
deriving DecidableEq, Repr

/-- Result of one `getAccessToken()` call: the returned token, the token
cache afterwards, and whether a network request to the token endpoint was
made. -/
structure TokenCallResult where
  token : String
  state : Option TokenEntry
  networkCalled : Bool
deriving DecidableEq, Repr

/-- One call to `getAccessToken()` at time `now`; `fetched` is the token the
token endpoint returns if it is consulted. -/
def getAccessToken (ttl : Nat) (st : Option TokenEntry) (now : Nat)
    (fetched : String) : TokenCallResult :=
  match st with
  | some e =>
    if now ≤ e.expiry then ⟨e.token, some e, false⟩
    else ⟨fetched, some ⟨fetched, now + ttl⟩, true⟩
  | none => ⟨fetched, some ⟨fetched, now + ttl⟩, true⟩

/-- A sequence of `getAccessToken()` calls; each list element is the call
time together with the token the endpoint would return at that call. -/
def getAccessTokenSeq (ttl : Nat) (st : Option TokenEntry) :
    List (Nat × String) → List (String × Bool) × Option TokenEntry
  | [] => ([], st)
  | (now, fetched) :: rest =>
    let r := getAccessToken ttl st now fetched
    let tail := getAccessTokenSeq ttl r.state rest
    ((r.token, r.networkCalled) :: tail.1, tail.2)

/-! ### API-key middleware (auth.middleware.js lines 4-24)

`apiKeyAuth` reads `req.header('X-API-Key')` and falls back (via `||`, so an
empty X-API-Key header also falls through) to
`req.header('Authorization')?.replace('Bearer ', '')`. A missing/empty key
yields 401, a key different from the configured value yields 403, otherwise
`next()` runs the protected handler. -/

/-- Substring test on character lists: does `needle` occur contiguously in
the second list? -/
def containsSubL (needle : List Char) : List Char → Bool
  | [] => needle.isEmpty
  | c :: cs => needle.isPrefixOf (c :: cs) || containsSubL needle cs

/-- JavaScript `s.includes(sub)` (case-sensitive substring test). -/
def includes (s sub : String) : Bool := containsSubL sub.data s.data

/-- Replace the first occurrence of `pat` in the character list
(JavaScript `String.replace` with a plain-string pattern). -/
def replaceFirstL (pat rep : List Char) : List Char → List Char
  | [] => []
  | c :: cs =>
    if pat.isPrefixOf (c :: cs) then rep ++ (c :: cs).drop pat.length
    else c :: replaceFirstL pat rep cs

/-- Replace the first occurrence of `pat` in `s` by `rep`. -/
def replaceFirst (pat rep s : String) : String := ⟨replaceFirstL pat.data rep.data s.data⟩

/-- Incoming request headers relevant to the middleware; `none` models an
absent header. -/
structure AuthReq where
  xApiKey : Option String
  authorization : Option String
deriving DecidableEq, Repr

/-- Outcome of a middleware run: either the chain continues into the
protected request handler (`next`) or a JSON error response
`\x7bsuccess, error\x7d` is sent with the given status. -/
inductive MwOutcome where
  | next : MwOutcome
  | respond (status : Nat) (success : Bool) (error : String) : MwOutcome
deriving DecidableEq, Repr

/-- The API key the request presents:
`req.header('X-API-Key') || req.header('Authorization')?.replace('Bearer ', '')`. -/
def extractApiKey (req : AuthReq) : Option String :=
  match req.xApiKey with
  | some s => if s = "" then req.authorization.map (replaceFirst "Bearer " "") else some s
  | none => req.authorization.map (replaceFirst "Bearer " "")

/-- The `apiKeyAuth` middleware. -/
def apiKeyAuth (cfgKey : String) (req : AuthReq) : MwOutcome :=
  match extractApiKey req with
  | none => .respond 401 false "API key is required"
  | some k =>
    if k = "" then .respond 401 false "API key is required"
    else if k ≠ cfgKey then .respond 403 false "Invalid API key"
    else .next

/-! ### Error handler middleware (src/unnamed/part_001 lines 3-46)

The handler inspects `err.response?.status`: 401, 403 and 404 map to fixed
domain errors; everything else is answered with `err.status || 500` and
`err.message || 'Internal server error'`, attaching the stack trace only
when `NODE_ENV === 'development'`. -/

/-- Error object reaching the handler: its own message/stack/status and the
upstream HTTP response (status and payload), when present. -/
structure ErrObj where
  message : String
  stack : String
  status : Option Nat
  responseStatus : Option Nat
  responseData : Option String
deriving DecidableEq, Repr

/-- JSON error response produced by the handler; `message`, `details` and
`stack` are only present on some branches. -/
structure ErrResponse where
  status : Nat
  success : Bool
  error : String
  message : Option String
  details : Option String
  stack : Option String
deriving DecidableEq, Repr

/-- The `errorHandler` middleware; `env` is `process.env.NODE_ENV`. -/
def errorHandler (env : String) (err : ErrObj) : ErrResponse :=
  if err.responseStatus = some 401 then
    ⟨401, false, "SharePoint authentication failed",
      some "Token may be expired or invalid", err.responseData, none⟩
  else if err.responseStatus = some 403 then
    ⟨403, false, "Access denied",
      some "Insufficient permissions to access SharePoint resource",
      err.responseData, none⟩
  else if err.responseStatus = some 404 then
    ⟨404, false, "Resource not found",
      some "The requested SharePoint resource does not exist",
      err.responseData, none⟩
  else
    ⟨jsOrNat err.status 500, false, jsOrStr err.message "Internal server error",
      none, none, if env = "development" then some err.stack else none⟩

/-! ### OData filter builders (sharepoint.service.js lines 202-207, 292-335)

`searchFilesByType` strips one leading dot from the extension
(`fileExtension.replace(/^\./, '')`, a non-global anchored regex) and
builds an `endswith` filter. `searchMultiCriteria` collects one clause per
truthy criteria field, in the source's fixed field order, and joins them
with `' and '`. The `orderby` criteria field only selects result ordering
and contributes no filter clause. -/

/-- Strip one leading dot from a character list (`replace(/^\./, '')`). -/
def stripLeadingDotL : List Char → List Char
  | [] => []
  | c :: cs => if c = '.' then cs else c :: cs

/-- Strip one leading dot from a string. -/
def stripLeadingDot (s : String) : String := ⟨stripLeadingDotL s.data⟩

/-- Filter built by `searchFilesByType`. -/
def searchFilesByTypeFilter (fileExtension : String) : String :=
  "endswith(FileLeafRef, " ++ sq ++ "." ++ stripLeadingDot fileExtension ++ sq ++ ")"

/-- Criteria record accepted by `searchMultiCriteria`; absent fields are
`none`. -/
structure Criteria where
  fileName : Option String
  fileType : Option String
  author : Option String
  editor : Option String
  folderPath : Option String
  startDate : Option String
  endDate : Option String
  keyword : Option String
  orderby : Option String
deriving DecidableEq, Repr

/-- Clause for `criteria.fileName`. -/
def fileNameClause (v : String) : String :=
  "substringof(" ++ sq ++ v ++ sq ++ ", FileLeafRef)"

/-- Clause for `criteria.fileType` (same dot normalization as
`searchFilesByType`). -/
def fileTypeClause (v : String) : String :=
  "endswith(FileLeafRef, " ++ sq ++ "." ++ stripLeadingDot v ++ sq ++ ")"

/-- Clause for `criteria.author`. -/
def authorClause (v : String) : String := "Author/Title eq " ++ sq ++ v ++ sq

/-- Clause for `criteria.editor`. -/
def editorClause (v : String) : String := "Editor/Title eq " ++ sq ++ v ++ sq

/-- Clause for `criteria.folderPath`. -/
def folderPathClause (v : String) : String :=
  "substringof(" ++ sq ++ v ++ sq ++ ", FileDirRef)"

/-- Clause for `criteria.startDate`. -/
def startDateClause (v : String) : String :=
  "Modified ge datetime" ++ sq ++ v ++ sq

/-- Clause for `criteria.endDate`. -/
def endDateClause (v : String) : String :=
  "Modified le datetime" ++ sq ++ v ++ sq

/-- Clause for `criteria.keyword`. -/
def keywordClause (v : String) : String :=
  "(substringof(" ++ sq ++ v ++ sq ++ ", FileLeafRef) or substringof("
    ++ sq ++ v ++ sq ++ ", Title))"

/-- The ordered clause list `filters` collected by `searchMultiCriteria`;
each truthy field contributes its clause, in the source's field order. -/
def multiCriteriaFilters (c : Criteria) : List String :=
  ((jsTruthyStr c.fileName).map fileNameClause).toList
  ++ ((jsTruthyStr c.fileType).map fileTypeClause).toList
  ++ ((jsTruthyStr c.author).map authorClause).toList
  ++ ((jsTruthyStr c.editor).map editorClause).toList
  ++ ((jsTruthyStr c.folderPath).map folderPathClause).toList
  ++ ((jsTruthyStr c.startDate).map startDateClause).toList
  ++ ((jsTruthyStr c.endDate).map endDateClause).toList
  ++ ((jsTruthyStr c.keyword).map keywordClause).toList

/-- Filter string built by `searchMultiCriteria`
(`filters.join(' and ')`). -/
def searchMultiCriteriaFilter (c : Criteria) : String :=
  joinSep " and " (multiCriteriaFilters c)

/-- Number of truthy filter-contributing fields of a criteria record. -/
def Criteria.setCount (c : Criteria) : Nat :=
  (if (jsTruthyStr c.fileName).isSome then 1 else 0)
  + (if (jsTruthyStr c.fileType).isSome then 1 else 0)
  + (if (jsTruthyStr c.author).isSome then 1 else 0)
  + (if (jsTruthyStr c.editor).isSome then 1 else 0)
  + (if (jsTruthyStr c.folderPath).isSome then 1 else 0)
  + (if (jsTruthyStr c.startDate).isSome then 1 else 0)
  + (if (jsTruthyStr c.endDate).isSome then 1 else 0)
  + (if (jsTruthyStr c.keyword).isSome then 1 else 0)

/-! ### Data-cache keys and write-path invalidation
(sharepoint.service.js lines 576-612 and 653-691)

`getListItems` caches under `items_<listTitle>_<endpoint>`, `getItemById`
under `item_<listTitle>_<itemId>`, `getListByTitle` under
`list_<listTitle>`. `updateItem` reads the list metadata and the current
item (caching both on a miss), performs the MERGE request, then calls
`dataCache.del` on the exact keys `item_<t>_<id>` and `items_<t>_*`; the
latter is a literal key, node-cache has no wildcard matching. -/

/-- Cache key used by `getItemById`. -/
def itemKey (listTitle : String) (itemId : Nat) : String :=
  "item_" ++ listTitle ++ "_" ++ toString itemId

/-- Cache key used by `getListByTitle`. -/
def listKey (listTitle : String) : String := "list_" ++ listTitle

/-- Literal key passed to `dataCache.del` by the write paths
(`items_${listTitle}_*`). -/
def wildItemsKey (listTitle : String) : String := "items_" ++ listTitle ++ "_*"

/-- Options accepted by `getListItems`. -/
structure ListItemsOptions where
  filter : Option String
  select : Option String
  top : Option Nat
  skip : Option Nat
  orderby : Option String
deriving DecidableEq, Repr

/-- Query parameters collected by `getListItems`, in source order; falsy
values (absent, empty string, zero) are skipped. -/
def getListItemsParams (o : ListItemsOptions) : List String :=
  ((jsTruthyStr o.filter).map (fun f => "$filter=" ++ f)).toList
  ++ ((jsTruthyStr o.select).map (fun s => "$select=" ++ s)).toList
  ++ ((jsTruthyNat o.top).map (fun n => "$top=" ++ toString n)).toList
  ++ ((jsTruthyNat o.skip).map (fun n => "$skip=" ++ toString n)).toList
  ++ ((jsTruthyStr o.orderby).map (fun s => "$orderby=" ++ s)).toList

/-- Endpoint string built by `getListItems`. -/
def getListItemsEndpoint (listTitle : String) (o : ListItemsOptions) : String :=
  let base := "/_api/web/lists/getbytitle(" ++ sq ++ listTitle ++ sq ++ ")/items"
  match getListItemsParams o with
  | [] => base
  | ps => base ++ "?" ++ joinSep "&" ps

/-- Cache key used by `getListItems`
(`items_${listTitle}_${endpoint}`). -/
def itemsKey (listTitle : String) (o : ListItemsOptions) : String :=
  "items_" ++ listTitle ++ "_" ++ getListItemsEndpoint listTitle o

/-- Cache effect of `getListByTitle`: read-through caching under
`list_<t>`; `fetchList` is the value the upstream returns on a miss. -/
def getListByTitleCache {V : Type} (fetchList : V) (t : String)
    (st : Cache V) : Cache V :=
  match st.get (listKey t) with
  | some _ => st
  | none => st.set (listKey t) fetchList

/-- `getItemById`: read-through caching under `item_<t>_<id>`; returns the
item and the cache afterwards. -/
def getItemById {V : Type} (fetchItem : V) (t : String) (id : Nat)
    (st : Cache V) : V × Cache V :=
  match st.get (itemKey t id) with
  | some v => (v, st)
  | none => (fetchItem, st.set (itemKey t id) fetchItem)

/-- Cache effect of `updateItem`: list metadata read, current-item read for
the ETag, then exact-key deletions of `item_<t>_<id>` and the literal
`items_<t>_*`. -/
def updateItem {V : Type} (fetchList fetchItem : V) (t : String) (id : Nat)
    (st : Cache V) : Cache V :=
  let st1 := getListByTitleCache fetchList t st
  let st2 := (getItemById fetchItem t id st1).2
  (st2.del (itemKey t id)).del (wildItemsKey t)

/-! ### `getItems` controller and `getListItems`
(items.controller.js lines 9-30, sharepoint.service.js lines 576-599) -/

/-- Decimal value of a digit run. -/
def digitsToNat (ds : List Char) : Nat :=
  ds.foldl (fun n c => n * 10 + (c.toNat - 48)) 0

/-- JavaScript `parseInt` restricted to base 10 on non-negative input:
leading whitespace is skipped, then a maximal digit run is read; no digits
gives NaN, modelled as `none`. Sign handling is omitted: the embedded call
sites pass non-negative query parameters. -/
def jsParseInt (s : String) : Option Nat :=
  let ds := (s.data.dropWhile Char.isWhitespace).takeWhile Char.isDigit
  if ds.isEmpty then none else some (digitsToNat ds)

/-- Modelled from the spec: the upstream OData list endpoint (the remote
document platform) is not part of this repository; per the spec's glossary
an OData request applies `$filter`, `$skip` and `$top` server-side. The
filter string is interpreted by an abstract semantic function `filterSem`;
`$orderby` only reorders results and is left unmodelled because the
embedded claims concern only counts. -/
def spListItems {V : Type} (filterSem : String → V → Bool) (items : List V)
    (o : ListItemsOptions) : List V :=
  let afterFilter := match jsTruthyStr o.filter with
    | some f => items.filter (filterSem f)
    | none => items
  let afterSkip := match jsTruthyNat o.skip with
    | some n => afterFilter.drop n
    | none => afterFilter
  match jsTruthyNat o.top with
  | some n => afterSkip.take n
  | none => afterSkip

/-- `getListItems`: read-through cache keyed by the full endpoint; `fetch`
gives the upstream response for a list title and options. -/
def getListItems {V : Type} (fetch : String → ListItemsOptions → List V)
    (t : String) (o : ListItemsOptions) (st : Cache (List V)) :
    List V × Cache (List V) :=
  match st.get (itemsKey t o) with
  | some v => (v, st)
  | none => (fetch t o, st.set (itemsKey t o) (fetch t o))

/-- Invariant: every cached list-query entry equals the upstream response
for the title and options its key encodes. -/
def CacheGood {V : Type} (fetch : String → ListItemsOptions → List V)
    (st : Cache (List V)) : Prop :=
  ∀ t o v, st.get (itemsKey t o) = some v → v = fetch t o

/-- Query-string parameters of a `GET /api/items/:listTitle/items`
request. -/
structure ItemsQuery where
  filter : Option String
  select : Option String
  top : Option String
  skip : Option String
  orderby : Option String
deriving DecidableEq, Repr

/-- Success envelope sent by the items controller:
success=true, data=data.d.results, count=data.d.results.length. -/
structure ApiResponse (V : Type) where
  success : Bool
  data : List V
  count : Nat
deriving DecidableEq, Repr

/-- `getItems` controller: parses `top` and `skip` with `parseInt` when the
parameter is present (truthy), delegates to `getListItems` and wraps the
result list in the success envelope. -/
def getItems {V : Type} (fetch : String → ListItemsOptions → List V)
    (t : String) (q : ItemsQuery) (st : Cache (List V)) :
    ApiResponse V × Cache (List V) :=
  let o : ListItemsOptions :=
    ⟨q.filter, q.select, (jsTruthyStr q.top).bind jsParseInt,
      (jsTruthyStr q.skip).bind jsParseInt, q.orderby⟩
  let r := getListItems fetch t o st
  (⟨true, r.1, r.1.length⟩, r.2)

/-! ### Intent classifier (sharepoint.service.js lines 487-571)

`detectSearchIntent` starts from a keyword-search intent carrying the query
in `term` and applies rules in source order: file-type regex table, author
regex / hard-coded author names, month names, recent keywords, folder
keywords, statistics keywords, literal file-name phrases. The month rule
consults `new Date().getFullYear()` when the query names no year; that
current year is an explicit parameter here. -/

inductive IntentType where
  | file_by_name
  | file_by_type
  | file_by_author
  | file_by_date
  | folder_contents
  | keyword_search
  | recent_files
  | statistics
deriving DecidableEq, Repr

/-- Intent object built by `detectSearchIntent`; rules mutate `type` and
their parameter fields, the initial `term` keeps the query unless the
file-name rule overwrites it. -/
structure Intent where
  type : IntentType
  term : Option String
  fileType : Option String
  author : Option String
  month : Option Nat
  year : Option Nat
  count : Option Nat
  folderPath : Option String
deriving DecidableEq, Repr

/-- ASCII lowercasing of a character list. -/
def lowerL (l : List Char) : List Char := l.map Char.toLower

/-- Case-insensitive substring test: JavaScript
`new RegExp(w, 'i').test(q)` for a literal lowercase word `w`. -/
def includesCI (q w : String) : Bool := containsSubL w.data (lowerL q.data)

/-- File-type regex table (`fileTypePatterns`) in insertion order; each
regex is an alternation of literal words (a trailing `s?` contributes the
singular and the plural alternative), tested case-insensitively. -/
def fileTypePatterns : List (List String × String) :=
  [ (["word", "docx", "doc", "word document", "word documents"], "docx"),
    (["powerpoint", "pptx", "ppt", "presentation", "presentations",
      "slide", "slides"], "pptx"),
    (["excel", "xlsx", "xls", "spreadsheet", "spreadsheets"], "xlsx"),
    (["pdf", "pdfs"], "pdf") ]

/-- First file-type pattern matching the query, if any. -/
def fileTypeRule (q : String) : Option String :=
  (fileTypePatterns.find? (fun p => p.1.any (fun w => includesCI q w))).map (·.2)

/-- Case-insensitive literal match at the start of the input ('i' flag). -/
def ciFront : List Char → List Char → Bool
  | [], _ => true
  | _ :: _, [] => false
  | p :: ps, c :: cs => (p.toLower == c.toLower) && ciFront ps cs

/-- Character class `[a-z]` under the 'i' flag. -/
def isAzLetter (c : Char) : Bool := 'a' ≤ c.toLower && c.toLower ≤ 'z'

/-- Character class `[a-z\s]` under the 'i' flag; `\s` is modelled as
whitespace. -/
def isAzOrSpace (c : Char) : Bool := isAzLetter c || c.isWhitespace

/-- Attempt to match `(?:by|created by|from|authored by)\s+([a-z\s]+)` at
the start of `s` and return the capture group. Alternatives are tried left
to right; `\s+` is greedy and backtracks one character when the class run
after the whitespace is empty. -/
def tryAuthorAt (s : List Char) : Option (List Char) :=
  ["by", "created by", "from", "authored by"].findSome? (fun lit =>
    let litL := lit.data
    if ciFront litL s then
      let rest := s.drop litL.length
      let w := rest.takeWhile Char.isWhitespace
      if w.length = 0 then none
      else
        let cap := (rest.drop w.length).takeWhile isAzOrSpace
        if cap.length ≠ 0 then some cap
        else if 2 ≤ w.length then some (w.drop (w.length - 1))
        else none
    else none)

/-- Leftmost match of the author regex over the query
(JavaScript `String.match`). -/
def authorRegexMatch : List Char → Option (List Char)
  | [] => none
  | c :: cs =>
    match tryAuthorAt (c :: cs) with
    | some cap => some cap
    | none => authorRegexMatch cs

/-- JavaScript `String.trim`: strip whitespace at both ends. -/
def jsTrim (l : List Char) : List Char :=
  ((l.dropWhile Char.isWhitespace).reverse.dropWhile Char.isWhitespace).reverse

/-- Author rule: a regex match or one of three hard-coded author substrings;
the author parameter is the trimmed capture when the regex matched, else
the hard-coded full name. -/
def authorRule (q : String) : Option String :=
  match authorRegexMatch q.data with
  | some cap => some ⟨jsTrim cap⟩
  | none =>
    if includes q "nicole stirling" || includes q "christine gooding"
        || includes q "sajjad" then
      some (if includes q "nicole" then "Nicole Stirling"
            else if includes q "christine" then "Christine Gooding"
            else "Sajjad")
    else none

/-- Month-name table in source insertion order. -/
def monthsTable : List (String × Nat) :=
  [("january", 1), ("february", 2), ("march", 3), ("april", 4), ("may", 5),
   ("june", 6), ("july", 7), ("august", 8), ("september", 9),
   ("october", 10), ("november", 11), ("december", 12)]

/-- First month name included in the query. -/
def monthRule (q : String) : Option Nat :=
  (monthsTable.find? (fun m => includes q m.1)).map (·.2)

/-- Word character for the `\b` boundary: `[A-Za-z0-9_]`. -/
def isWordChar (c : Char) : Bool := c.isAlphanum || c = '_'

/-- Leftmost match of `\b(20\d\x7b2\x7d)\b` as a number; `prev` is the
character just before the current position. -/
def findYearAux (prev : Option Char) : List Char → Option Nat
  | c1 :: c2 :: c3 :: c4 :: rest =>
    if c1 = '2' && c2 = '0' && c3.isDigit && c4.isDigit
        && (match prev with | some p => ! isWordChar p | none => true)
        && (match rest.head? with | some n => ! isWordChar n | none => true) then
      some (2000 + 10 * (c3.toNat - 48) + (c4.toNat - 48))
    else findYearAux (some c1) (c2 :: c3 :: c4 :: rest)
  | _ => none

/-- Year found in the query (`query.match(/\b(20\d\x7b2\x7d)\b/)`). -/
def findYear (q : String) : Option Nat := findYearAux none q.data

/-- Leftmost digit run in the query (`query.match(/(\d+)/)`) as a number. -/
def firstNumber (q : String) : Option Nat :=
  match q.data.dropWhile (fun c => ! c.isDigit) with
  | [] => none
  | ds => some (digitsToNat (ds.takeWhile Char.isDigit))

/-- Recent-files keywords. -/
def recentRule (q : String) : Bool :=
  includes q "recent" || includes q "latest" || includes q "newest"

/-- Folder keyword table in source order. -/
def folderKeywords : List String :=
  ["templates", "marketing", "branding", "clients", "internal assets"]

/-- First folder keyword included in the query. -/
def folderRule (q : String) : Option String :=
  folderKeywords.find? (fun f => includes q f)

/-- Statistics keywords. -/
def statsRule (q : String) : Bool :=
  includes q "statistics" || includes q "summary" || includes q "how many"
    || includes q "count"

/-- Literal file-name phrases. -/
def fileNameRule (q : String) : Bool :=
  includes q "venue research" || includes q "conference checklist"
    || includes q "event signage"

/-- Term chosen by the literal file-name rule. -/
def fileNameTerm (q : String) : String :=
  if includes q "venue" then "Venue Research"
  else if includes q "conference" then "conference checklist"
  else if includes q "signage" then "Event signage"
  else q

/-- `detectSearchIntent`; `currentYear` is `new Date().getFullYear()`,
consulted only by the month rule when the query names no year. -/
def detectSearchIntent (q : String) (currentYear : Nat) : Intent :=
  match fileTypeRule q with
  | some t => ⟨.file_by_type, some q, some t, none, none, none, none, none⟩
  | none =>
    match authorRule q with
    | some a => ⟨.file_by_author, some q, none, some a, none, none, none, none⟩
    | none =>
      match monthRule q with
      | some m =>
        ⟨.file_by_date, some q, none, none, some m,
          some ((findYear q).getD currentYear), none, none⟩
      | none =>
        if recentRule q then
          ⟨.recent_files, some q, none, none, none, none,
            some ((firstNumber q).getD 10), none⟩
        else
          match folderRule q with
          | some f =>
            ⟨.folder_contents, some q, none, none, none, none, none,
              some ("/sites/YourSite/Documents/" ++ f)⟩
          | none =>
            if statsRule q then
              ⟨.statistics, some q, none, none, none, none, none, none⟩
            else if fileNameRule q then
              ⟨.file_by_name, some (fileNameTerm q), none, none, none, none,
                none, none⟩
            else ⟨.keyword_search, some q, none, none, none, none, none, none⟩

/-- Intent produced by each classifier rule (`none` when the rule does not
match), listed in the documented order: file-type keywords, author phrases,
month names, recent keywords, folder keywords, statistics keywords, literal
file-name phrases. -/
def intentRuleList (q : String) (currentYear : Nat) : List (Option Intent) :=
  [ (fileTypeRule q).map
      (fun t => ⟨.file_by_type, some q, some t, none, none, none, none, none⟩),
    (authorRule q).map
      (fun a => ⟨.file_by_author, some q, none, some a, none, none, none, none⟩),
    (monthRule q).map
      (fun m => ⟨.file_by_date, some q, none, none, some m,
        some ((findYear q).getD currentYear), none, none⟩),
    (if recentRule q then
      some ⟨.recent_files, some q, none, none, none, none,
        some ((firstNumber q).getD 10), none⟩
     else none),
    (folderRule q).map
      (fun f => ⟨.folder_contents, some q, none, none, none, none, none,
        some ("/sites/YourSite/Documents/" ++ f)⟩),
    (if statsRule q then
      some ⟨.statistics, some q, none, none, none, none, none, none⟩
     else none),
    (if fileNameRule q then
      some ⟨.file_by_name, some (fileNameTerm q), none, none, none, none,
        none, none⟩
     else none) ]

/-- First matching rule wins; when no rule matches, the fallback is a
keyword-search intent carrying the whole query. -/
def detectSearchIntentSpec (q : String) (currentYear : Nat) : Intent :=
  ((intentRuleList q currentYear).findSome? id).getD
    ⟨.keyword_search, some q, none, none, none, none, none, none⟩

/-! ### Helper lemmas -/

theorem Cache.get_del_self {V : Type} (st : Cache V) (k : String) :
    (Cache.del st k).get k = none := by
  simp [Cache.get, Cache.del]

theorem Cache.get_del_ne {V : Type} (st : Cache V) (k k' : String)
    (h : k' ≠ k) : (Cache.del st k).get k' = st.get k' := by
  simp [Cache.get, Cache.del, h]

theorem Cache.get_set_self {V : Type} (st : Cache V) (k : String) (v : V) :
    (Cache.set st k v).get k = some v := by
  simp [Cache.get, Cache.set]

theorem Cache.get_set_ne {V : Type} (st : Cache V) (k k' : String) (v : V)
    (h : k' ≠ k) : (Cache.set st k v).get k' = st.get k' := by
  simp [Cache.get, Cache.set, h]

theorem opt_toList_length {α : Type} (o : Option α) :
    o.toList.length = if o.isSome then 1 else 0 := by
  cases o <;> simp

theorem opt_isSome_map {α β : Type} (f : α → β) (o : Option α) :
    (o.map f).isSome = o.isSome := by
  cases o <;> rfl

theorem multiCriteriaFilters_length (c : Criteria) :
    (multiCriteriaFilters c).length = c.setCount := by
  simp only [multiCriteriaFilters, Criteria.setCount, List.length_append,
    opt_toList_length, opt_isSome_map]

theorem data_append (a b : String) : (a ++ b).data = a.data ++ b.data := rfl

theorem spListItems_length_le {V : Type} (filterSem : String → V → Bool)
    (items : List V) (o : ListItemsOptions) (n : Nat)
    (h : jsTruthyNat o.top = some n) :
    (spListItems filterSem items o).length ≤ n := by
  unfold spListItems
  rw [h]
  simp [List.length_take]

theorem cacheGood_empty {V : Type} (fetch : String → ListItemsOptions → List V) :
    CacheGood fetch Cache.empty := by
  intro t o v h
  simp [Cache.get, Cache.empty] at h

theorem endpoint_data_head (t : String) (o : ListItemsOptions) :
    ∃ r, (getListItemsEndpoint t o).data = '/' :: r := by
  unfold getListItemsEndpoint
  cases getListItemsParams o with
  | nil => exact ⟨_, rfl⟩
  | cons p ps => exact ⟨_, rfl⟩

theorem wild_suffix_aux :
    ∀ (b a r : List Char), a ++ ['_', '*'] = b ++ '_' :: '/' :: r → '/' ∈ a := by
  intro b
  induction b with
  | nil =>
    intro a r h
    cases a with
    | nil =>
      simp only [List.nil_append, List.cons.injEq] at h
      exact absurd h.2.1 (by decide)
    | cons x a' =>
      cases a' with
      | nil =>
        simp only [List.cons_append, List.nil_append, List.cons.injEq] at h
        exact absurd h.2.1 (by decide)
      | cons y a'' =>
        simp only [List.cons_append, List.nil_append, List.cons.injEq] at h
        rw [h.2.1]
        exact List.mem_cons_of_mem x (List.mem_cons_self _ _)
  | cons x b' ih =>
    intro a r h
    cases a with
    | nil =>
      have hlen := congrArg List.length h
      simp [List.length_append] at hlen
      omega
    | cons y a' =>
      simp only [List.cons_append, List.cons.injEq] at h
      exact List.mem_cons_of_mem y (ih a' r h.2)

theorem itemsKey_ne_itemKey (t' : String) (o : ListItemsOptions)
    (t : String) (id : Nat) : itemsKey t' o ≠ itemKey t id := by
  intro h
  have hd := congrArg String.data h
  simp only [itemsKey, itemKey, data_append,
    show ("items_" : String).data = ['i', 't', 'e', 'm', 's', '_'] from rfl,
    show ("item_" : String).data = ['i', 't', 'e', 'm', '_'] from rfl,
    List.append_assoc, List.cons_append, List.nil_append,
    List.cons.injEq] at hd
  exact absurd hd.2.2.2.2.1 (by decide)

theorem itemsKey_ne_listKey (t' : String) (o : ListItemsOptions)
    (t : String) : itemsKey t' o ≠ listKey t := by
  intro h
  have hd := congrArg String.data h
  simp only [itemsKey, listKey, data_append,
    show ("items_" : String).data = ['i', 't', 'e', 'm', 's', '_'] from rfl,
    show ("list_" : String).data = ['l', 'i', 's', 't', '_'] from rfl,
    List.append_assoc, List.cons_append, List.nil_append,
    List.cons.injEq] at hd
  exact absurd hd.1 (by decide)

theorem itemKey_ne_wildItemsKey (t : String) (id : Nat) (t0 : String) :
    itemKey t id ≠ wildItemsKey t0 := by
  intro h
  have hd := congrArg String.data h
  simp only [itemKey, wildItemsKey, data_append,
    show ("items_" : String).data = ['i', 't', 'e', 'm', 's', '_'] from rfl,
    show ("item_" : String).data = ['i', 't', 'e', 'm', '_'] from rfl,
    List.append_assoc, List.cons_append, List.nil_append,
    List.cons.injEq] at hd
  exact absurd hd.2.2.2.2.1 (by decide)

theorem itemsKey_ne_wildItemsKey (t' : String) (o : ListItemsOptions)
    (t : String) (h : '/' ∉ t.data) : itemsKey t' o ≠ wildItemsKey t := by
  intro he
  obtain ⟨r, hr⟩ := endpoint_data_head t' o
  have hd := congrArg String.data he.symm
  simp only [itemsKey, wildItemsKey, data_append, hr,
    show ("items_" : String).data = ['i', 't', 'e', 'm', 's', '_'] from rfl,
    show ("_*" : String).data = ['_', '*'] from rfl,
    show ("_" : String).data = ['_'] from rfl,
    List.append_assoc, List.cons_append, List.nil_append,
    List.cons.injEq, true_and] at hd
  exact h (wild_suffix_aux t'.data t.data r hd)

end SharePointProxy

namespace SharePointProxy

/-- C1: once a token is stored with expiry `exp`, every call made at a time
within the TTL (`now ≤ exp`) returns the identical cached token with no
network request and leaves the cache unchanged; a call after expiry
(`exp < now`) performs a token-endpoint request and stores its result. -/
theorem getAccessToken_cache_ttl (ttl : Nat) (tok : String) (exp : Nat)
    (calls : List (Nat × String)) (hin : ∀ c ∈ calls, c.1 ≤ exp) :
    (getAccessTokenSeq ttl (some ⟨tok, exp⟩) calls).1
        = calls.map (fun _ => (tok, false))
    ∧ (getAccessTokenSeq ttl (some ⟨tok, exp⟩) calls).2 = some ⟨tok, exp⟩
    ∧ ∀ now fetched, exp < now →
        getAccessToken ttl (some ⟨tok, exp⟩) now fetched
          = ⟨fetched, some ⟨fetched, now + ttl⟩, true⟩ := by
  refine ⟨?_, ?_, ?_⟩
  · induction calls with
    | nil => rfl
    | cons c rest ih =>
      have hc : c.1 ≤ exp := hin c (List.mem_cons_self c rest)
      have hrest : ∀ c ∈ rest, c.1 ≤ exp := fun d hd => hin d (List.mem_cons_of_mem c hd)
      simp only [getAccessTokenSeq, getAccessToken, hc, if_pos hc, List.map]
      exact congrArg _ (ih hrest)
  · induction calls with
    | nil => rfl
    | cons c rest ih =>
      have hc : c.1 ≤ exp := hin c (List.mem_cons_self c rest)
      have hrest : ∀ c ∈ rest, c.1 ≤ exp := fun d hd => hin d (List.mem_cons_of_mem c hd)
      simp only [getAccessTokenSeq, getAccessToken, hc, if_pos hc]
      exact ih hrest
  · intro now fetched hlt
    simp [getAccessToken, Nat.not_le.mpr hlt]

/-- Witness for C1 at a concrete call sequence: token stored with expiry
100, calls at times 10 and 50 both return the cached token without network
calls, and a call at time 101 refreshes. -/
theorem getAccessToken_cache_ttl_witness :
    (getAccessTokenSeq 3500 (some ⟨"tok", 100⟩) [(10, "a"), (50, "b")]).1
        = [("tok", false), ("tok", false)]
    ∧ getAccessToken 3500 (some ⟨"tok", 100⟩) 101 "c"
        = ⟨"c", some ⟨"c", 3601⟩, true⟩ := by
  have h := getAccessToken_cache_ttl 3500 "tok" 100 [(10, "a"), (50, "b")]
    (by intro c hc; fin_cases hc <;> decide)
  exact ⟨h.1, h.2.2 101 "c" (by decide)⟩

/-- C7: a request presenting a nonempty API key (through either header
mechanism) that differs from the configured value is answered with
HTTP 403 and body success=false, error="Invalid API key", and the protected
handler is not invoked. -/
theorem apiKeyAuth_wrong_key (cfgKey : String) (req : AuthReq) (k : String)
    (hk : extractApiKey req = some k) (hne : k ≠ "") (hbad : k ≠ cfgKey) :
    apiKeyAuth cfgKey req = .respond 403 false "Invalid API key"
    ∧ apiKeyAuth cfgKey req ≠ .next := by
  constructor
  · simp [apiKeyAuth, hk, hne, hbad]
  · simp [apiKeyAuth, hk, hne, hbad]

/-- Witness for C7: the key "wrong" sent via X-API-Key against configured
key "secret" is rejected with 403 "Invalid API key". -/
theorem apiKeyAuth_wrong_key_witness :
    apiKeyAuth "secret" ⟨some "wrong", none⟩ = .respond 403 false "Invalid API key"
    ∧ apiKeyAuth "secret" ⟨some "wrong", none⟩ ≠ .next :=
  apiKeyAuth_wrong_key "secret" ⟨some "wrong", none⟩ "wrong" (by decide)
    (by decide) (by decide)

/-- C9: a request presenting no API key at all (neither an X-API-Key header
nor an Authorization header) is answered with HTTP 401 and body
success=false, error="API key is required", a status and message distinct
from the 403 "Invalid API key" answer for a wrong key. -/
theorem apiKeyAuth_missing_key (cfgKey : String) (req : AuthReq)
    (hx : req.xApiKey = none) (ha : req.authorization = none) :
    apiKeyAuth cfgKey req = .respond 401 false "API key is required"
    ∧ MwOutcome.respond 401 false "API key is required"
        ≠ .respond 403 false "Invalid API key" := by
  refine ⟨?_, by decide⟩
  simp [apiKeyAuth, extractApiKey, hx, ha]

/-- Witness for C9: a request with both headers absent gets the 401
response. -/
theorem apiKeyAuth_missing_key_witness :
    apiKeyAuth "secret" ⟨none, none⟩ = .respond 401 false "API key is required"
    ∧ MwOutcome.respond 401 false "API key is required"
        ≠ .respond 403 false "Invalid API key" :=
  apiKeyAuth_missing_key "secret" ⟨none, none⟩ rfl rfl

/-- C6: the error handler classifies by upstream HTTP status: 401 maps to a
401 authentication-failure response, 403 to a 403 access-denied response,
404 to a 404 not-found response; for every other error the response status
is the error's own status (500 when absent) with the error message passed
through, and a stack trace appears only under the development environment
gate. -/
theorem errorHandler_classifies (env : String) (err : ErrObj) :
    (err.responseStatus = some 401 →
      errorHandler env err = ⟨401, false, "SharePoint authentication failed",
        some "Token may be expired or invalid", err.responseData, none⟩)
    ∧ (err.responseStatus = some 403 →
      errorHandler env err = ⟨403, false, "Access denied",
        some "Insufficient permissions to access SharePoint resource",
        err.responseData, none⟩)
    ∧ (err.responseStatus = some 404 →
      errorHandler env err = ⟨404, false, "Resource not found",
        some "The requested SharePoint resource does not exist",
        err.responseData, none⟩)
    ∧ (err.responseStatus ≠ some 401 → err.responseStatus ≠ some 403 →
        err.responseStatus ≠ some 404 →
        (∀ s, err.status = some s → s ≠ 0 → (errorHandler env err).status = s)
        ∧ (err.status = none → (errorHandler env err).status = 500)
        ∧ (err.message ≠ "" → (errorHandler env err).error = err.message)
        ∧ ((errorHandler env err).stack.isSome → env = "development")
        ∧ (env ≠ "development" → (errorHandler env err).stack = none)) := by
  refine ⟨fun h => by simp [errorHandler, h], ?_, ?_, ?_⟩
  · intro h
    by_cases h1 : err.responseStatus = some 401
    · rw [h1] at h; exact absurd (Option.some.inj h) (by decide)
    · simp [errorHandler, h1, h]
  · intro h
    by_cases h1 : err.responseStatus = some 401
    · rw [h1] at h; exact absurd (Option.some.inj h) (by decide)
    · by_cases h3 : err.responseStatus = some 403
      · rw [h3] at h; exact absurd (Option.some.inj h) (by decide)
      · simp [errorHandler, h1, h3, h]
  · intro h1 h3 h4
    refine ⟨?_, ?_, ?_, ?_, ?_⟩
    · intro s hs hs0
      simp [errorHandler, h1, h3, h4, jsOrNat, hs, hs0]
    · intro hs
      simp [errorHandler, h1, h3, h4, jsOrNat, hs]
    · intro hm
      simp [errorHandler, h1, h3, h4, jsOrStr, hm]
    · intro hstk
      by_cases he : env = "development"
      · exact he
      · simp [errorHandler, h1, h3, h4, he] at hstk
    · intro he
      simp [errorHandler, h1, h3, h4, he]

/-- C2 counterexample: on the input "excel files from Nicole" the
classifier returns a file_by_type intent (the file-type rule fires first on
"excel"), not the claimed file_by_author intent. -/
theorem detectSearchIntent_excel_nicole_counterexample :
    (detectSearchIntent "excel files from Nicole" 2025).type
        = IntentType.file_by_type
    ∧ (detectSearchIntent "excel files from Nicole" 2025).type
        ≠ IntentType.file_by_author := by
  decide

/-- C2 (amended): for the input "excel files from Nicole" (whatever the
current year) detectSearchIntent returns the file_by_type intent with
fileType "xlsx": the file-type rule fires before the author-phrase rule. -/
theorem detectSearchIntent_excel_nicole (y : Nat) :
    detectSearchIntent "excel files from Nicole" y
      = ⟨.file_by_type, some "excel files from Nicole", some "xlsx",
          none, none, none, none, none⟩ := by
  rfl

/-- C3 counterexample: detectSearchIntent is not a pure function of its
input string: on "january" the result depends on the current year the code
reads from the clock (the month rule defaults the year parameter to it). -/
theorem detectSearchIntent_not_pure_counterexample :
    detectSearchIntent "january" 2025 ≠ detectSearchIntent "january" 2026 := by
  decide

/-- C3 (amended): with the clock-read current year as an explicit second
argument, detectSearchIntent applies its rules in the fixed order
file-type, author phrases, month names, recent keywords, folder keywords,
statistics keywords, literal file-name phrases — the first matching rule
determines the result and otherwise the result is a keyword-search intent
carrying the whole query (detectSearchIntentSpec is exactly that ordered
first-match computation); the intent variant returned never depends on the
current year. -/
theorem detectSearchIntent_ordered_rules (q : String) (y y2 : Nat) :
    detectSearchIntent q y = detectSearchIntentSpec q y
    ∧ (detectSearchIntent q y).type = (detectSearchIntent q y2).type := by
  have main : ∀ z : Nat, detectSearchIntent q z = detectSearchIntentSpec q z := by
    intro z
    unfold detectSearchIntent detectSearchIntentSpec intentRuleList
    cases h1 : fileTypeRule q with
    | some t => simp [List.findSome?]
    | none =>
      cases h2 : authorRule q with
      | some a => simp [List.findSome?]
      | none =>
        cases h3 : monthRule q with
        | some m => simp [List.findSome?]
        | none =>
          cases h4 : recentRule q with
          | true => simp [List.findSome?]
          | false =>
            cases h5 : folderRule q with
            | some f => simp [List.findSome?]
            | none =>
              cases h6 : statsRule q with
              | true => simp [List.findSome?]
              | false =>
                cases h7 : fileNameRule q with
                | true => simp [List.findSome?]
                | false => simp [List.findSome?]
  refine ⟨main y, ?_⟩
  rw [main y, main y2]
  unfold detectSearchIntentSpec intentRuleList
  cases h1 : fileTypeRule q with
  | some t => simp [List.findSome?]
  | none =>
    cases h2 : authorRule q with
    | some a => simp [List.findSome?]
    | none =>
      cases h3 : monthRule q with
      | some m => simp [List.findSome?]
      | none =>
        cases h4 : recentRule q with
        | true => simp [List.findSome?]
        | false =>
          cases h5 : folderRule q with
          | some f => simp [List.findSome?]
          | none =>
            cases h6 : statsRule q with
            | true => simp [List.findSome?]
            | false =>
              cases h7 : fileNameRule q with
              | true => simp [List.findSome?]
              | false => simp [List.findSome?]

/-- C4: after `updateItem(listTitle, itemId, data)` the data-cache entry
under the exact key item_<listTitle>_<itemId> is gone, so a subsequent
`getItemById` fetches fresh data instead of serving the cache; the
wildcard deletion of the literal key items_<listTitle>_* removes no cached
`getListItems` entry (for any list title and options), so cached list-query
results are not invalidated. `listTitle` is a path segment, modelled as
containing no slash. -/
theorem updateItem_cache_invalidation {V : Type} (fetchList fetchItem fresh : V)
    (t : String) (id : Nat) (st : Cache V) (hslash : '/' ∉ t.data) :
    (updateItem fetchList fetchItem t id st).get (itemKey t id) = none
    ∧ (getItemById fresh t id (updateItem fetchList fetchItem t id st)).1 = fresh
    ∧ ∀ (t' : String) (o : ListItemsOptions),
        (updateItem fetchList fetchItem t id st).get (itemsKey t' o)
          = st.get (itemsKey t' o) := by
  have h1 : (updateItem fetchList fetchItem t id st).get (itemKey t id) = none := by
    unfold updateItem
    rw [Cache.get_del_ne _ _ _ (itemKey_ne_wildItemsKey t id t)]
    exact Cache.get_del_self _ _
  refine ⟨h1, by simp [getItemById, h1], ?_⟩
  intro t' o
  have hA : ∀ stx : Cache V,
      ((getItemById fetchItem t id stx).2).get (itemsKey t' o)
        = stx.get (itemsKey t' o) := by
    intro stx
    unfold getItemById
    cases hgi : stx.get (itemKey t id) with
    | some v => simp [hgi]
    | none =>
      simp only [hgi]
      exact Cache.get_set_ne _ _ _ _ (itemsKey_ne_itemKey t' o t id)
  have hB : (getListByTitleCache fetchList t st).get (itemsKey t' o)
      = st.get (itemsKey t' o) := by
    unfold getListByTitleCache
    cases hgl : st.get (listKey t) with
    | some v => simp [hgl]
    | none =>
      simp only [hgl]
      exact Cache.get_set_ne _ _ _ _ (itemsKey_ne_listKey t' o t)
  unfold updateItem
  rw [Cache.get_del_ne _ _ _ (itemsKey_ne_wildItemsKey t' o t hslash),
    Cache.get_del_ne _ _ _ (itemsKey_ne_itemKey t' o t id), hA, hB]

/-- Witness for C4: in a cache holding a list-query entry and the item
entry for item 7 of "Documents", updating that item removes the item entry,
a following `getItemById` returns the fresh value, and the list-query entry
survives untouched. -/
theorem updateItem_cache_invalidation_witness :
    (updateItem (V := Nat) 1 2 "Documents" 7
        (Cache.set (Cache.set Cache.empty
          (itemsKey "Documents" ⟨none, none, some 5, none, none⟩) 9)
          (itemKey "Documents" 7) 5)).get (itemKey "Documents" 7) = none
    ∧ (getItemById (V := Nat) 3 "Documents" 7
        (updateItem 1 2 "Documents" 7
          (Cache.set (Cache.set Cache.empty
            (itemsKey "Documents" ⟨none, none, some 5, none, none⟩) 9)
            (itemKey "Documents" 7) 5))).1 = 3
    ∧ (updateItem (V := Nat) 1 2 "Documents" 7
        (Cache.set (Cache.set Cache.empty
          (itemsKey "Documents" ⟨none, none, some 5, none, none⟩) 9)
          (itemKey "Documents" 7) 5)).get
        (itemsKey "Documents" ⟨none, none, some 5, none, none⟩)
      = (Cache.set (Cache.set Cache.empty
          (itemsKey "Documents" ⟨none, none, some 5, none, none⟩) 9)
          (itemKey "Documents" 7) 5).get
        (itemsKey "Documents" ⟨none, none, some 5, none, none⟩) := by
  have h := updateItem_cache_invalidation (V := Nat) 1 2 3 "Documents" 7
    (Cache.set (Cache.set Cache.empty
      (itemsKey "Documents" ⟨none, none, some 5, none, none⟩) 9)
      (itemKey "Documents" 7) 5) (by decide)
  exact ⟨h.1, h.2.1, h.2.2 "Documents" ⟨none, none, some 5, none, none⟩⟩

/-- C8: a successful `GET /api/items/:listTitle/items` request carrying
top=5 (against an upstream honoring `$top` and a cache whose entries are
upstream responses) is answered with success=true, a data array of at most
5 elements and a count equal to the data array's length. -/
theorem getItems_top_five {V : Type} (filterSem : String → V → Bool)
    (items : String → List V) (t : String) (q : ItemsQuery)
    (st : Cache (List V))
    (hgood : CacheGood (fun t' o => spListItems filterSem (items t') o) st)
    (htop : q.top = some "5") :
    (getItems (fun t' o => spListItems filterSem (items t') o) t q st).1.success = true
    ∧ (getItems (fun t' o => spListItems filterSem (items t') o) t q st).1.count
      = (getItems (fun t' o => spListItems filterSem (items t') o) t q st).1.data.length
    ∧ (getItems (fun t' o => spListItems filterSem (items t') o) t q st).1.data.length ≤ 5 := by
  have hop : (jsTruthyStr q.top).bind jsParseInt = some 5 := by
    rw [htop]; decide
  have hlen : ∀ o : ListItemsOptions, jsTruthyNat o.top = some 5 →
      (getListItems (fun t' o' => spListItems filterSem (items t') o') t o st).1.length ≤ 5 := by
    intro o hto
    unfold getListItems
    cases hc : st.get (itemsKey t o) with
    | some v =>
      simp only [hc]
      rw [hgood t o v hc]
      exact spListItems_length_le filterSem (items t) o 5 hto
    | none =>
      simp only [hc]
      exact spListItems_length_le filterSem (items t) o 5 hto
  have ho5 : jsTruthyNat ((jsTruthyStr q.top).bind jsParseInt) = some 5 := by
    rw [hop]; decide
  exact ⟨rfl, rfl, hlen
    ⟨q.filter, q.select, (jsTruthyStr q.top).bind jsParseInt,
      (jsTruthyStr q.skip).bind jsParseInt, q.orderby⟩ ho5⟩

/-- Witness for C8: seven upstream items, an empty cache and the query
top="5" produce a successful envelope with five items and count 5. -/
theorem getItems_top_five_witness :
    (getItems (fun _ o => spListItems (fun _ _ => true) ([1, 2, 3, 4, 5, 6, 7] : List Nat) o)
      "Documents" ⟨none, none, some "5", none, none⟩ Cache.empty).1.success = true
    ∧ (getItems (fun _ o => spListItems (fun _ _ => true) ([1, 2, 3, 4, 5, 6, 7] : List Nat) o)
      "Documents" ⟨none, none, some "5", none, none⟩ Cache.empty).1.count
      = (getItems (fun _ o => spListItems (fun _ _ => true) ([1, 2, 3, 4, 5, 6, 7] : List Nat) o)
      "Documents" ⟨none, none, some "5", none, none⟩ Cache.empty).1.data.length
    ∧ (getItems (fun _ o => spListItems (fun _ _ => true) ([1, 2, 3, 4, 5, 6, 7] : List Nat) o)
      "Documents" ⟨none, none, some "5", none, none⟩ Cache.empty).1.data.length ≤ 5 :=
  getItems_top_five (fun _ _ => true) (fun _ => [1, 2, 3, 4, 5, 6, 7])
    "Documents" ⟨none, none, some "5", none, none⟩ Cache.empty
    (cacheGood_empty _) rfl

/-- C5: for the criteria record with only fileType="pdf" set, the produced
filter contains the clause endswith(FileLeafRef, '.pdf') (and so does
`searchFilesByType("pdf")`); for every criteria record with exactly two
truthy fields the produced filter is the two corresponding clauses joined
by " and ". -/
theorem searchMultiCriteria_builds_filter :
    includes
      (searchMultiCriteriaFilter
        ⟨none, some "pdf", none, none, none, none, none, none, none⟩)
      ("endswith(FileLeafRef, " ++ sq ++ ".pdf" ++ sq ++ ")") = true
    ∧ includes (searchFilesByTypeFilter "pdf")
      ("endswith(FileLeafRef, " ++ sq ++ ".pdf" ++ sq ++ ")") = true
    ∧ ∀ c : Criteria, c.setCount = 2 →
        ∃ a b, multiCriteriaFilters c = [a, b]
          ∧ searchMultiCriteriaFilter c = a ++ " and " ++ b := by
  refine ⟨by decide, by decide, ?_⟩
  intro c hc
  have hlen : (multiCriteriaFilters c).length = 2 := by
    rw [multiCriteriaFilters_length, hc]
  obtain ⟨a, b, hab⟩ := List.length_eq_two.mp hlen
  exact ⟨a, b, hab, by simp [searchMultiCriteriaFilter, hab, joinSep]⟩

/-- Witness for C5: the record with fileType="pdf" and author="Nicole
Stirling" has exactly two truthy fields, and the produced filter is the
endswith clause ANDed with the author clause. -/
theorem searchMultiCriteria_builds_filter_witness :
    (Criteria.setCount
        ⟨none, some "pdf", some "Nicole Stirling", none, none, none, none,
          none, none⟩ = 2)
    ∧ ∃ a b,
        multiCriteriaFilters
            ⟨none, some "pdf", some "Nicole Stirling", none, none, none,
              none, none, none⟩ = [a, b]
          ∧ searchMultiCriteriaFilter
              ⟨none, some "pdf", some "Nicole Stirling", none, none, none,
                none, none, none⟩ = a ++ " and " ++ b :=
  ⟨by decide,
    searchMultiCriteria_builds_filter.2.2
      ⟨none, some "pdf", some "Nicole Stirling", none, none, none, none,
        none, none⟩ (by decide)⟩

/-- C10 counterexample: for the extension string ".pdf", `searchFilesByType`
builds different filters for ".pdf" and "." ++ ".pdf" (only one leading dot
is stripped), so the claimed normalization identity fails for extensions
that themselves start with a dot. -/
theorem searchFilesByType_dot_counterexample :
    searchFilesByTypeFilter ".pdf" ≠ searchFilesByTypeFilter ("." ++ ".pdf") := by
  decide

theorem stripLeadingDot_dot_append (ext : String) :
    stripLeadingDot ("." ++ ext) = ext := by
  cases ext with
  | mk l =>
    show String.mk (stripLeadingDotL (String.data ("." ++ ⟨l⟩))) = ⟨l⟩
    have hd : String.data ("." ++ String.mk l) = '.' :: l := rfl
    rw [hd]
    simp [stripLeadingDotL]

theorem stripLeadingDot_eq_self (s : String) (h : s.data.head? ≠ some '.') :
    stripLeadingDot s = s := by
  have hl : stripLeadingDotL s.data = s.data := by
    cases hs : s.data with
    | nil => simp [stripLeadingDotL]
    | cons c cs =>
      have hc : c ≠ '.' := by
        rw [hs] at h
        simpa using h
      simp [stripLeadingDotL, hc]
  show String.mk (stripLeadingDotL s.data) = s
  rw [hl]

/-- C10 (amended): for every extension string not already starting with a
dot, `searchFilesByType` builds the same filter for the bare and the
dotted spelling, namely endswith(FileLeafRef, '.ext'); the fileType clause
inside `searchMultiCriteria` is normalized identically. -/
theorem searchFilesByType_normalizes (ext : String)
    (h : ext.data.head? ≠ some '.') :
    searchFilesByTypeFilter ext = searchFilesByTypeFilter ("." ++ ext)
    ∧ searchFilesByTypeFilter ext
        = "endswith(FileLeafRef, " ++ sq ++ "." ++ ext ++ sq ++ ")"
    ∧ fileTypeClause ext = fileTypeClause ("." ++ ext) := by
  refine ⟨?_, ?_, ?_⟩
  · simp [searchFilesByTypeFilter, stripLeadingDot_dot_append,
      stripLeadingDot_eq_self ext h]
  · simp [searchFilesByTypeFilter, stripLeadingDot_eq_self ext h]
  · simp [fileTypeClause, stripLeadingDot_dot_append,
      stripLeadingDot_eq_self ext h]

/-- Witness for C10 at the extension "pdf": both spellings produce the
'.pdf' endswith filter. -/
theorem searchFilesByType_normalizes_witness :
    searchFilesByTypeFilter "pdf" = searchFilesByTypeFilter ("." ++ "pdf")
    ∧ searchFilesByTypeFilter "pdf"
        = "endswith(FileLeafRef, " ++ sq ++ "." ++ "pdf" ++ sq ++ ")"
    ∧ fileTypeClause "pdf" = fileTypeClause ("." ++ "pdf") :=
  searchFilesByType_normalizes "pdf" (by decide)

/-- Witness for C6 at concrete errors: an upstream 401 is translated to the
authentication-failure response; an error with no upstream status, its own
status 502 and message "boom" passes both through, with no stack outside
development. -/
theorem errorHandler_classifies_witness :
    errorHandler "production" ⟨"m", "st", none, some 401, some "d"⟩
        = ⟨401, false, "SharePoint authentication failed",
            some "Token may be expired or invalid", some "d", none⟩
    ∧ (errorHandler "production" ⟨"boom", "st", some 502, none, none⟩).status = 502
    ∧ (errorHandler "production" ⟨"boom", "st", some 502, none, none⟩).error = "boom"
    ∧ (errorHandler "production" ⟨"boom", "st", some 502, none, none⟩).stack = none := by
  have h1 := (errorHandler_classifies "production"
    ⟨"m", "st", none, some 401, some "d"⟩).1 rfl
  have h2 := (errorHandler_classifies "production"
    ⟨"boom", "st", some 502, none, none⟩).2.2.2
    (by decide) (by decide) (by decide)
  exact ⟨h1, h2.1 502 rfl (by decide), h2.2.2.1 (by decide),
    h2.2.2.2.2 (by decide)⟩

end SharePointProxy
